import Mathlib

/-
Verification of the SparkFun AS7343 Arduino library driver
(src/src/sfTk/sfDevAS7343.cpp together with the register layouts of
sfDevAS7343.h).

The driver talks to the sensor through a SparkFun-Toolkit bus object
offering readRegister / writeRegister / bulk-read primitives.  The bus is
an external collaborator; following the interface contract of the spec it
is modelled as a register file (one byte per address), a schedule of
transaction faults, and the number of bytes a bulk read transfers.  Every
transaction is recorded in a log so that theorems can speak about the
exact sequence of reads and writes an operation issues.

Each sfDevAS7343 method used by the claims is translated one-to-one from
the C++ source; bit-field member assignments and reads are translated via
setBits / getBits, which implement the C semantics of an 8-bit-packed
bit-field at a given offset and width.
-/

namespace AS7343

/-- Read of a C bit-field: bits [lo, lo+width) of byte b. -/
def getBits (b lo width : Nat) : Nat := b / 2 ^ lo % 2 ^ width

/-- Assignment to a C bit-field: replace bits [lo, lo+width) of byte b by
v (truncated to width bits, as C does), leaving all other bits intact. -/
def setBits (b lo width v : Nat) : Nat :=
  b / 2 ^ (lo + width) * 2 ^ (lo + width) + v % 2 ^ width * 2 ^ lo + b % 2 ^ lo

/-! Register addresses, from sfDevAS7343.h (names kept from the source). -/

def kSfeAS7343RegID : Nat := 0x5A
def kSfeAS7343RegCfg12 : Nat := 0x66
def kSfeAS7343RegGpio : Nat := 0x6B
def kSfeAS7343RegEnable : Nat := 0x80
def kSfeAS7343RegWTime : Nat := 0x83
def kSfeAS7343RegStatus2 : Nat := 0x90
def kSfeAS7343RegStatus3 : Nat := 0x91
def kSfeAS7343RegStatus : Nat := 0x93
def kSfeAS7343RegData0 : Nat := 0x95
def kSfeAS7343RegStatus4 : Nat := 0xBC
def kSfeAS7343RegCfg0 : Nat := 0xBF
def kSfeAS7343RegCfg1 : Nat := 0xC6
def kSfeAS7343RegLed : Nat := 0xCD
def kSfeAS7343RegFdStatus : Nat := 0xE3
def kSfeAS7343RegIntEnab : Nat := 0xF9

/-- as7343_reg_bank_t from sfDevAS7343.h. -/
inductive RegBank where
  | REG_BANK_0
  | REG_BANK_1
deriving DecidableEq

/-- as7343_gpio_mode_t from sfDevAS7343.h. -/
inductive GpioMode where
  | AS7343_GPIO_MODE_OUTPUT
  | AS7343_GPIO_MODE_INPUT
deriving DecidableEq

/-- A bus transaction, as issued by the driver to the sfTkIBus object. -/
inductive Tx where
  | readT (addr : Nat)
  | writeT (addr val : Nat)
  | blockT (addr len : Nat)
deriving DecidableEq

/-- The external bus collaborator (spec section 6 contract): a byte-valued
register file, a schedule saying which upcoming transactions fail, the
number of bytes the transport moves on a bulk read, and a log of all
transactions issued so far. -/
structure Bus where
  regs : Nat → Nat
  faults : List Bool
  bulkN : Nat
  log : List Tx

/-- Consume the outcome of the next transaction from the fault schedule
(an empty schedule means every remaining transaction succeeds). -/
def Bus.nextFault (b : Bus) : Bool × Bus :=
  match b.faults with
  | [] => (false, b)
  | f :: rest => (f, { b with faults := rest })

/-- sfTkIBus::readRegister(addr, byte): returns the byte at addr, or none
on a transport failure. -/
def Bus.readRegister (b : Bus) (addr : Nat) : Option Nat × Bus :=
  let p := b.nextFault
  let b1 := { p.2 with log := p.2.log ++ [Tx.readT addr] }
  if p.1 then (none, b1) else (some (b1.regs addr % 256), b1)

/-- sfTkIBus::writeRegister(addr, byte): stores the byte at addr; false on
a transport failure. -/
def Bus.writeRegister (b : Bus) (addr v : Nat) : Bool × Bus :=
  let p := b.nextFault
  let b1 := { p.2 with log := p.2.log ++ [Tx.writeT addr (v % 256)] }
  if p.1 then (false, b1)
  else (true, { b1 with regs := fun a => if a = addr then v % 256 else b1.regs a })

/-- sfTkIBus::readRegister(addr, buffer, len, nRead): the bulk read.  On
success the transport delivers min(bulkN, len) consecutive register bytes
starting at addr (nRead is the length of the returned list); on a
transport failure it delivers nothing. -/
def Bus.readBlock (b : Bus) (addr len : Nat) : Option (List Nat) × Bus :=
  let p := b.nextFault
  let b1 := { p.2 with log := p.2.log ++ [Tx.blockT addr len] }
  if p.1 then (none, b1)
  else (some ((List.range (min b1.bulkN len)).map fun k => b1.regs (addr + k) % 256), b1)

/-- The sfDevAS7343 object: whether a bus is attached (non-null _theBus)
and the 36 raw bytes backing the _data[18] array of 16-bit words. -/
structure Driver where
  theBus : Bool
  data : List Nat
deriving DecidableEq

/-- A driver with a bus attached and zero-initialized sample storage. -/
def freshDriver : Driver := ⟨true, List.replicate 36 0⟩

/-- A bus with the given register file, fault schedule and bulk-transfer
count, and an empty transaction log. -/
def mkBus (regs : Nat → Nat) (faults : List Bool) (bulkN : Nat) : Bus :=
  ⟨regs, faults, bulkN, []⟩

/-- sfDevAS7343::setRegisterBank (sfDevAS7343.cpp lines 66-89): read CFG0
(0xBF), set the reg_bank bit (bit 4) to the requested bank, write it
back. -/
def setRegisterBank (d : Driver) (b : Bus) (regBank : RegBank) : Bool × Bus :=
  if d.theBus = false then (false, b)
  else
    match b.readRegister kSfeAS7343RegCfg0 with
    | (none, b1) => (false, b1)
    | (some cfg0, b1) =>
      let cfg0a := if regBank = RegBank.REG_BANK_1 then setBits cfg0 4 1 1
                   else setBits cfg0 4 1 0
      match b1.writeRegister kSfeAS7343RegCfg0 cfg0a with
      | (false, b2) => (false, b2)
      | (true, b2) => (true, b2)

/-- sfDevAS7343::powerOn (sfDevAS7343.cpp lines 91-116).  Note: the source
reads register kSfeAS7343RegID (0x5A) here, not the Enable register, then
sets the pon bit (bit 0) and writes the result to the Enable register. -/
def powerOn (d : Driver) (b : Bus) : Bool × Bus :=
  if d.theBus = false then (false, b)
  else
    match setRegisterBank d b RegBank.REG_BANK_1 with
    | (false, b1) => (false, b1)
    | (true, b1) =>
      match b1.readRegister kSfeAS7343RegID with
      | (none, b2) => (false, b2)
      | (some enableReg, b2) =>
        let enableReg1 := setBits enableReg 0 1 1
        match b2.writeRegister kSfeAS7343RegEnable enableReg1 with
        | (false, b3) => (false, b3)
        | (true, b3) => (true, b3)

/-- sfDevAS7343::powerOff (sfDevAS7343.cpp lines 118-143).  Like powerOn,
the source reads register kSfeAS7343RegID (0x5A), clears the pon bit and
writes the result to the Enable register. -/
def powerOff (d : Driver) (b : Bus) : Bool × Bus :=
  if d.theBus = false then (false, b)
  else
    match setRegisterBank d b RegBank.REG_BANK_1 with
    | (false, b1) => (false, b1)
    | (true, b1) =>
      match b1.readRegister kSfeAS7343RegID with
      | (none, b2) => (false, b2)
      | (some enableReg, b2) =>
        let enableReg1 := setBits enableReg 0 1 0
        match b2.writeRegister kSfeAS7343RegEnable enableReg1 with
        | (false, b3) => (false, b3)
        | (true, b3) => (true, b3)

/-- sfDevAS7343::spectralMeasurementEnable (sfDevAS7343.cpp lines
145-170): bank 1, read Enable (0x80), set sp_en (bit 1), write back. -/
def spectralMeasurementEnable (d : Driver) (b : Bus) : Bool × Bus :=
  if d.theBus = false then (false, b)
  else
    match setRegisterBank d b RegBank.REG_BANK_1 with
    | (false, b1) => (false, b1)
    | (true, b1) =>
      match b1.readRegister kSfeAS7343RegEnable with
      | (none, b2) => (false, b2)
      | (some enableReg, b2) =>
        let enableReg1 := setBits enableReg 1 1 1
        match b2.writeRegister kSfeAS7343RegEnable enableReg1 with
        | (false, b3) => (false, b3)
        | (true, b3) => (true, b3)

/-- sfDevAS7343::spectralMeasurementDisable (sfDevAS7343.cpp lines
172-197): bank 1, read Enable, clear sp_en (bit 1), write back. -/
def spectralMeasurementDisable (d : Driver) (b : Bus) : Bool × Bus :=
  if d.theBus = false then (false, b)
  else
    match setRegisterBank d b RegBank.REG_BANK_1 with
    | (false, b1) => (false, b1)
    | (true, b1) =>
      match b1.readRegister kSfeAS7343RegEnable with
      | (none, b2) => (false, b2)
      | (some enableReg, b2) =>
        let enableReg1 := setBits enableReg 1 1 0
        match b2.writeRegister kSfeAS7343RegEnable enableReg1 with
        | (false, b3) => (false, b3)
        | (true, b3) => (true, b3)

/-- sfDevAS7343::enableWaitTime (sfDevAS7343.cpp lines 617-642): bank 0,
read Enable, set wen (bit 3), write back. -/
def enableWaitTime (d : Driver) (b : Bus) : Bool × Bus :=
  if d.theBus = false then (false, b)
  else
    match setRegisterBank d b RegBank.REG_BANK_0 with
    | (false, b1) => (false, b1)
    | (true, b1) =>
      match b1.readRegister kSfeAS7343RegEnable with
      | (none, b2) => (false, b2)
      | (some enableReg, b2) =>
        let enableReg1 := setBits enableReg 3 1 1
        match b2.writeRegister kSfeAS7343RegEnable enableReg1 with
        | (false, b3) => (false, b3)
        | (true, b3) => (true, b3)

/-- sfDevAS7343::disableWaitTime (sfDevAS7343.cpp lines 644-669). -/
def disableWaitTime (d : Driver) (b : Bus) : Bool × Bus :=
  if d.theBus = false then (false, b)
  else
    match setRegisterBank d b RegBank.REG_BANK_0 with
    | (false, b1) => (false, b1)
    | (true, b1) =>
      match b1.readRegister kSfeAS7343RegEnable with
      | (none, b2) => (false, b2)
      | (some enableReg, b2) =>
        let enableReg1 := setBits enableReg 3 1 0
        match b2.writeRegister kSfeAS7343RegEnable enableReg1 with
        | (false, b3) => (false, b3)
        | (true, b3) => (true, b3)

/-- sfDevAS7343::enableFlickerDetection (sfDevAS7343.cpp lines 934-959):
bank 0, read Enable, set fden (bit 6), write back. -/
def enableFlickerDetection (d : Driver) (b : Bus) : Bool × Bus :=
  if d.theBus = false then (false, b)
  else
    match setRegisterBank d b RegBank.REG_BANK_0 with
    | (false, b1) => (false, b1)
    | (true, b1) =>
      match b1.readRegister kSfeAS7343RegEnable with
      | (none, b2) => (false, b2)
      | (some enableReg, b2) =>
        let enableReg1 := setBits enableReg 6 1 1
        match b2.writeRegister kSfeAS7343RegEnable enableReg1 with
        | (false, b3) => (false, b3)
        | (true, b3) => (true, b3)

/-- sfDevAS7343::disableFlickerDetection (sfDevAS7343.cpp lines 961-986). -/
def disableFlickerDetection (d : Driver) (b : Bus) : Bool × Bus :=
  if d.theBus = false then (false, b)
  else
    match setRegisterBank d b RegBank.REG_BANK_0 with
    | (false, b1) => (false, b1)
    | (true, b1) =>
      match b1.readRegister kSfeAS7343RegEnable with
      | (none, b2) => (false, b2)
      | (some enableReg, b2) =>
        let enableReg1 := setBits enableReg 6 1 0
        match b2.writeRegister kSfeAS7343RegEnable enableReg1 with
        | (false, b3) => (false, b3)
        | (true, b3) => (true, b3)

/-- sfDevAS7343::readAllSpectralData (sfDevAS7343.cpp lines 199-219):
bank 0, one bulk read of 36 bytes starting at the data-0 register (0x95)
straight into the _data buffer, then fail unless 36 bytes were read.  The
transferred bytes overwrite the corresponding prefix of _data before the
length check happens, exactly as the C++ call writes into _data. -/
def readAllSpectralData (d : Driver) (b : Bus) : Bool × Driver × Bus :=
  if d.theBus = false then (false, d, b)
  else
    match setRegisterBank d b RegBank.REG_BANK_0 with
    | (false, b1) => (false, d, b1)
    | (true, b1) =>
      match b1.readBlock kSfeAS7343RegData0 36 with
      | (none, b2) => (false, d, b2)
      | (some bytes, b2) =>
        let d1 : Driver := { d with data := bytes ++ d.data.drop bytes.length }
        if bytes.length ≠ 36 then (false, d1, b2) else (true, d1, b2)

/-- sfDevAS7343::getData (sfDevAS7343.cpp lines 221-229): bounds check,
then the little-endian 16-bit word of channel (the .word member of the
data_l / data_h byte pair). -/
def getData (d : Driver) (channel : Nat) : Nat :=
  if 17 < channel then 0
  else d.data.getD (2 * channel) 0 + 256 * d.data.getD (2 * channel + 1) 0

/-- sfDevAS7343::getChannelData (sfDevAS7343.cpp lines 368-376): bounds
check, then getData. -/
def getChannelData (d : Driver) (channel : Nat) : Nat :=
  if 17 < channel then 0 else getData d channel

/-- sfDevAS7343::setLedDrive (sfDevAS7343.cpp lines 313-342): reject
drive values above 127 before any bus traffic, otherwise bank 0, read the
LED register (0xCD), set led_drive (bits 0-6), write back. -/
def setLedDrive (d : Driver) (b : Bus) (drive : Nat) : Bool × Bus :=
  if d.theBus = false then (false, b)
  else if 127 < drive then (false, b)
  else
    match setRegisterBank d b RegBank.REG_BANK_0 with
    | (false, b1) => (false, b1)
    | (true, b1) =>
      match b1.readRegister kSfeAS7343RegLed with
      | (none, b2) => (false, b2)
      | (some ledReg, b2) =>
        let ledReg1 := setBits ledReg 0 7 drive
        match b2.writeRegister kSfeAS7343RegLed ledReg1 with
        | (false, b3) => (false, b3)
        | (true, b3) => (true, b3)

/-- sfDevAS7343::setAgain (sfDevAS7343.cpp lines 907-932): bank 0, read
CFG1 (0xC6), set the 5-bit again field (bits 0-4), write back.  The again
argument is the underlying value of the as7343_again_t enumerator. -/
def setAgain (d : Driver) (b : Bus) (again : Nat) : Bool × Bus :=
  if d.theBus = false then (false, b)
  else
    match setRegisterBank d b RegBank.REG_BANK_0 with
    | (false, b1) => (false, b1)
    | (true, b1) =>
      match b1.readRegister kSfeAS7343RegCfg1 with
      | (none, b2) => (false, b2)
      | (some cfg1, b2) =>
        let cfg1a := setBits cfg1 0 5 again
        match b2.writeRegister kSfeAS7343RegCfg1 cfg1a with
        | (false, b3) => (false, b3)
        | (true, b3) => (true, b3)

/-- sfDevAS7343::setGpioMode (sfDevAS7343.cpp lines 712-749): bank 0,
read the GPIO register (0x6B), set or clear gpio_in_en (bit 2) according
to the mode, write back. -/
def setGpioMode (d : Driver) (b : Bus) (gpioMode : GpioMode) : Bool × Bus :=
  if d.theBus = false then (false, b)
  else
    match setRegisterBank d b RegBank.REG_BANK_0 with
    | (false, b1) => (false, b1)
    | (true, b1) =>
      match b1.readRegister kSfeAS7343RegGpio with
      | (none, b2) => (false, b2)
      | (some gpioReg, b2) =>
        let gpioReg1 := if gpioMode = GpioMode.AS7343_GPIO_MODE_INPUT then setBits gpioReg 2 1 1
                        else setBits gpioReg 2 1 0
        match b2.writeRegister kSfeAS7343RegGpio gpioReg1 with
        | (false, b3) => (false, b3)
        | (true, b3) => (true, b3)

/-- sfDevAS7343::getFdFrequency (sfDevAS7343.cpp lines 1031-1057): bank
0, read FD_STATUS (0xE3); 100 if fd_100hz_det (bit 0) and fd_100hz_valid
(bit 2) are set, else 120 if fd_120hz_det (bit 1) and fd_120hz_valid
(bit 3) are set, else 0; 0 on any failure. -/
def getFdFrequency (d : Driver) (b : Bus) : Nat × Bus :=
  if d.theBus = false then (0, b)
  else
    match setRegisterBank d b RegBank.REG_BANK_0 with
    | (false, b1) => (0, b1)
    | (true, b1) =>
      match b1.readRegister kSfeAS7343RegFdStatus with
      | (none, b2) => (0, b2)
      | (some fdStatusReg, b2) =>
        if getBits fdStatusReg 0 1 = 1 ∧ getBits fdStatusReg 2 1 = 1 then (100, b2)
        else if getBits fdStatusReg 1 1 = 1 ∧ getBits fdStatusReg 3 1 = 1 then (120, b2)
        else (0, b2)

/-- sfDevAS7343::getSystemInterruptStatus (sfDevAS7343.cpp lines
495-514): bank 0, read STATUS (0x93), return the sint bit (bit 0); false
on any failure. -/
def getSystemInterruptStatus (d : Driver) (b : Bus) : Bool × Bus :=
  if d.theBus = false then (false, b)
  else
    match setRegisterBank d b RegBank.REG_BANK_0 with
    | (false, b1) => (false, b1)
    | (true, b1) =>
      match b1.readRegister kSfeAS7343RegStatus with
      | (none, b2) => (false, b2)
      | (some statusReg, b2) => (decide (getBits statusReg 0 1 = 1), b2)

/-- sfDevAS7343::getSpectralChannelInterruptStatus (sfDevAS7343.cpp lines
516-535): bank 0, read STATUS (0x93), return the aint bit (bit 3). -/
def getSpectralChannelInterruptStatus (d : Driver) (b : Bus) : Bool × Bus :=
  if d.theBus = false then (false, b)
  else
    match setRegisterBank d b RegBank.REG_BANK_0 with
    | (false, b1) => (false, b1)
    | (true, b1) =>
      match b1.readRegister kSfeAS7343RegStatus with
      | (none, b2) => (false, b2)
      | (some statusReg, b2) => (decide (getBits statusReg 3 1 = 1), b2)

/-- sfDevAS7343::getSpectralInterruptHighStatus (sfDevAS7343.cpp lines
537-556): bank 0, read STATUS3 (0x91), return the int_sp_h bit (bit 5). -/
def getSpectralInterruptHighStatus (d : Driver) (b : Bus) : Bool × Bus :=
  if d.theBus = false then (false, b)
  else
    match setRegisterBank d b RegBank.REG_BANK_0 with
    | (false, b1) => (false, b1)
    | (true, b1) =>
      match b1.readRegister kSfeAS7343RegStatus3 with
      | (none, b2) => (false, b2)
      | (some statusReg, b2) => (decide (getBits statusReg 5 1 = 1), b2)

/-- sfDevAS7343::getSpectralTriggerErrorStatus (sfDevAS7343.cpp lines
558-577): bank 0, read STATUS4 (0xBC), return the sp_trig bit (bit 2). -/
def getSpectralTriggerErrorStatus (d : Driver) (b : Bus) : Bool × Bus :=
  if d.theBus = false then (false, b)
  else
    match setRegisterBank d b RegBank.REG_BANK_0 with
    | (false, b1) => (false, b1)
    | (true, b1) =>
      match b1.readRegister kSfeAS7343RegStatus4 with
      | (none, b2) => (false, b2)
      | (some statusReg, b2) => (decide (getBits statusReg 2 1 = 1), b2)

/-- sfDevAS7343::getSpectralValidStatus (sfDevAS7343.cpp lines 671-690):
bank 0, read STATUS2 (0x90), return the avalid bit (bit 6). -/
def getSpectralValidStatus (d : Driver) (b : Bus) : Bool × Bus :=
  if d.theBus = false then (false, b)
  else
    match setRegisterBank d b RegBank.REG_BANK_0 with
    | (false, b1) => (false, b1)
    | (true, b1) =>
      match b1.readRegister kSfeAS7343RegStatus2 with
      | (none, b2) => (false, b2)
      | (some statusReg, b2) => (decide (getBits statusReg 6 1 = 1), b2)

/-- sfDevAS7343::getGpioInputStatus (sfDevAS7343.cpp lines 751-770): bank
0, read the GPIO register (0x6B), return the gpio_in bit (bit 0). -/
def getGpioInputStatus (d : Driver) (b : Bus) : Bool × Bus :=
  if d.theBus = false then (false, b)
  else
    match setRegisterBank d b RegBank.REG_BANK_0 with
    | (false, b1) => (false, b1)
    | (true, b1) =>
      match b1.readRegister kSfeAS7343RegGpio with
      | (none, b2) => (false, b2)
      | (some gpioReg, b2) => (decide (getBits gpioReg 0 1 = 1), b2)

/-- sfDevAS7343::getFdValidStatus (sfDevAS7343.cpp lines 988-1007): bank
0, read FD_STATUS (0xE3), return the fd_meas_valid bit (bit 5). -/
def getFdValidStatus (d : Driver) (b : Bus) : Bool × Bus :=
  if d.theBus = false then (false, b)
  else
    match setRegisterBank d b RegBank.REG_BANK_0 with
    | (false, b1) => (false, b1)
    | (true, b1) =>
      match b1.readRegister kSfeAS7343RegFdStatus with
      | (none, b2) => (false, b2)
      | (some fdStatusReg, b2) => (decide (getBits fdStatusReg 5 1 = 1), b2)

/-- sfDevAS7343::getFdSaturationStatus (sfDevAS7343.cpp lines 1010-1029):
bank 0, read FD_STATUS (0xE3), return the fd_saturation bit (bit 4). -/
def getFdSaturationStatus (d : Driver) (b : Bus) : Bool × Bus :=
  if d.theBus = false then (false, b)
  else
    match setRegisterBank d b RegBank.REG_BANK_0 with
    | (false, b1) => (false, b1)
    | (true, b1) =>
      match b1.readRegister kSfeAS7343RegFdStatus with
      | (none, b2) => (false, b2)
      | (some fdStatusReg, b2) => (decide (getBits fdStatusReg 4 1 = 1), b2)

/-- sfDevAS7343::begin (sfDevAS7343.cpp lines 29-38).  The C++ function
returns false when neither a stored nor an argument bus exists, stores a
non-null argument bus, and then reaches the end of the bool function body
without a return statement; that missing return value is modelled as
none.  The theBus argument is whether the pointer argument is non-null. -/
def begin (d : Driver) (theBus : Bool) : Option Bool × Driver :=
  if d.theBus = false ∧ theBus = false then (some false, d)
  else
    let d1 := if theBus = true then { d with theBus := true } else d
    (none, d1)

/-- The writes an operation issued to the Enable register, in order,
extracted from a bus log. -/
def enableWritesOf (l : List Tx) : List Nat :=
  l.filterMap fun t =>
    match t with
    | Tx.writeT a v => if a = kSfeAS7343RegEnable then some v else none
    | _ => none

/-! Arithmetic facts about the bit-field update function, used to relate
written bytes to the bytes they were derived from. -/

/-- Updating the reg_bank bit (bit 4) of a byte changes no other bit:
bits 0-3 and bits 5-7 survive, and bit 4 becomes the requested value. -/
theorem setBits_bit4_frame (r v : Nat) (hr : r < 256) (hv : v ≤ 1) :
    setBits r 4 1 v % 256 % 16 = r % 16 ∧
    setBits r 4 1 v % 256 / 32 = r / 32 ∧
    setBits r 4 1 v % 256 / 16 % 2 = v := by
  unfold setBits
  norm_num
  omega

/-- Setting the sp_en bit (bit 1) of a byte twice writes the same byte. -/
theorem setBits_sp_en_idempotent (r : Nat) :
    setBits (setBits r 1 1 1 % 256 % 256) 1 1 1 % 256 = setBits r 1 1 1 % 256 := by
  unfold setBits
  norm_num
  omega

/-- Updating the 7-bit led_drive field (bits 0-6) of a byte stores the
drive value in those bits and leaves the led_act bit (bit 7) alone. -/
theorem setBits_led_drive (r v : Nat) (hr : r < 256) (hv : v ≤ 127) :
    setBits r 0 7 v % 256 % 128 = v ∧ setBits r 0 7 v % 256 / 128 = r / 128 := by
  unfold setBits
  norm_num
  omega

/-- A register file with the Enable register at 0x02 (sp_en set, pon
clear) and every other register, in particular the ID register, at 0. -/
def c1Regs : Nat → Nat := fun a => if a = kSfeAS7343RegEnable then 2 else 0

/-- C1: refuted on the code for powerOn.  Starting from ENABLE = 0x02
(SP_EN set) and ID = 0x00, powerOn reads the ID register 0x5A (not the
ENABLE register), sets bit 0 of that byte and writes the result 0x01 to
ENABLE, destroying the SP_EN sibling bit: the byte written (1) is not the
byte read from ENABLE with only PON set (which would be 3). -/
theorem powerOn_writes_byte_from_id_register :
    (powerOn freshDriver (mkBus c1Regs [] 0)).1 = true ∧
    (powerOn freshDriver (mkBus c1Regs [] 0)).2.log
      = [Tx.readT kSfeAS7343RegCfg0, Tx.writeT kSfeAS7343RegCfg0 16,
         Tx.readT kSfeAS7343RegID, Tx.writeT kSfeAS7343RegEnable 1] ∧
    (powerOn freshDriver (mkBus c1Regs [] 0)).2.regs kSfeAS7343RegEnable = 1 ∧
    setBits (c1Regs kSfeAS7343RegEnable % 256) 0 1 1 = 3 := by
  decide

/-- C2: refuted on the code.  spectralMeasurementEnable selects register
bank 1 (its CFG0 write sets the reg_bank bit, value 0x10) and then
accesses the ENABLE register 0x80, an address at or above 0x80 for which
the claim requires bank 0; setGpioMode selects bank 0 (its CFG0 write
clears the reg_bank bit) and then accesses the GPIO register 0x6B, an
address below 0x80 for which the claim requires bank 1. -/
theorem bank_selection_contradicts_address_rule :
    (spectralMeasurementEnable freshDriver (mkBus (fun _ => 0) [] 0)).2.log
      = [Tx.readT kSfeAS7343RegCfg0, Tx.writeT kSfeAS7343RegCfg0 16,
         Tx.readT kSfeAS7343RegEnable, Tx.writeT kSfeAS7343RegEnable 2] ∧
    getBits 16 4 1 = 1 ∧ 0x80 ≤ kSfeAS7343RegEnable ∧
    (setGpioMode freshDriver (mkBus (fun _ => 16) [] 0)
        GpioMode.AS7343_GPIO_MODE_INPUT).2.log
      = [Tx.readT kSfeAS7343RegCfg0, Tx.writeT kSfeAS7343RegCfg0 0,
         Tx.readT kSfeAS7343RegGpio, Tx.writeT kSfeAS7343RegGpio 20] ∧
    getBits 0 4 1 = 0 ∧ kSfeAS7343RegGpio < 0x80 := by
  decide

/-- C6: refuted on the code.  With a transport available, begin stores
the bus but then reaches the end of its bool function body without a
return statement (modelled as none), instead of returning true as the
claim states; only the no-transport path actually returns (false). -/
theorem begin_reaches_end_without_return :
    begin ⟨false, List.replicate 36 0⟩ true = (none, ⟨true, List.replicate 36 0⟩) ∧
    begin freshDriver false = (none, freshDriver) ∧
    begin ⟨false, List.replicate 36 0⟩ false
      = (some false, ⟨false, List.replicate 36 0⟩) := by
  decide

/-- C3: confirmed.  For every starting CFG0 byte and both banks,
setRegisterBank issues exactly one read of CFG0 followed by one write of
CFG0, and the written byte keeps bits 0-3 and bits 5-7 of the byte it
read while bit 4 (reg_bank) becomes the requested bank. -/
theorem setRegisterBank_preserves_sibling_bits (regs : Nat → Nat) (bank : RegBank) :
    (setRegisterBank freshDriver (mkBus regs [] 0) bank).1 = true ∧
    (setRegisterBank freshDriver (mkBus regs [] 0) bank).2.log
      = [Tx.readT kSfeAS7343RegCfg0,
         Tx.writeT kSfeAS7343RegCfg0
           ((setRegisterBank freshDriver (mkBus regs [] 0) bank).2.regs kSfeAS7343RegCfg0)] ∧
    (setRegisterBank freshDriver (mkBus regs [] 0) bank).2.regs kSfeAS7343RegCfg0 % 16
      = regs kSfeAS7343RegCfg0 % 256 % 16 ∧
    (setRegisterBank freshDriver (mkBus regs [] 0) bank).2.regs kSfeAS7343RegCfg0 / 32
      = regs kSfeAS7343RegCfg0 % 256 / 32 ∧
    (setRegisterBank freshDriver (mkBus regs [] 0) bank).2.regs kSfeAS7343RegCfg0 / 16 % 2
      = (if bank = RegBank.REG_BANK_1 then 1 else 0) := by
  have h256 : regs kSfeAS7343RegCfg0 % 256 < 256 := Nat.mod_lt _ (by norm_num)
  cases bank
  · have h := setBits_bit4_frame (regs kSfeAS7343RegCfg0 % 256) 0 h256 (by norm_num)
    exact ⟨rfl, rfl, h.1, h.2.1, h.2.2⟩
  · have h := setBits_bit4_frame (regs kSfeAS7343RegCfg0 % 256) 1 h256 (by norm_num)
    exact ⟨rfl, rfl, h.1, h.2.1, h.2.2⟩

/-- C9: confirmed.  On a bus whose reads return the last value written,
both calls return true and the two writes issued to the ENABLE register
by two consecutive spectralMeasurementEnable calls carry the identical
byte: the byte first read from ENABLE with sp_en set. -/
theorem spectralMeasurementEnable_idempotent_write (regs : Nat → Nat) :
    (spectralMeasurementEnable freshDriver (mkBus regs [] 0)).1 = true ∧
    (spectralMeasurementEnable freshDriver
        ((spectralMeasurementEnable freshDriver (mkBus regs [] 0)).2)).1 = true ∧
    enableWritesOf ((spectralMeasurementEnable freshDriver
        ((spectralMeasurementEnable freshDriver (mkBus regs [] 0)).2)).2).log
      = [setBits (regs kSfeAS7343RegEnable % 256) 1 1 1 % 256,
         setBits (regs kSfeAS7343RegEnable % 256) 1 1 1 % 256] := by
  refine ⟨rfl, rfl, ?_⟩
  show [setBits (regs kSfeAS7343RegEnable % 256) 1 1 1 % 256,
        setBits (setBits (regs kSfeAS7343RegEnable % 256) 1 1 1 % 256 % 256) 1 1 1 % 256]
      = [setBits (regs kSfeAS7343RegEnable % 256) 1 1 1 % 256,
         setBits (regs kSfeAS7343RegEnable % 256) 1 1 1 % 256]
  rw [setBits_sp_en_idempotent]

/-- C10: confirmed.  Each of the eight boolean status accessors returns
false when the bus is unattached, when the bank-selection read or write
fails, and when the status-register read fails; on a fully successful run
it returns exactly the queried status bit, so a genuinely clear flag
yields the same false as every failure path. -/
theorem status_accessors_return_false_on_failure (regs : Nat → Nat) :
    ((getSystemInterruptStatus ⟨false, List.replicate 36 0⟩ (mkBus regs [] 0)).1 = false ∧
     (getSystemInterruptStatus freshDriver (mkBus regs [true] 0)).1 = false ∧
     (getSystemInterruptStatus freshDriver (mkBus regs [false, true] 0)).1 = false ∧
     (getSystemInterruptStatus freshDriver (mkBus regs [false, false, true] 0)).1 = false ∧
     (getSystemInterruptStatus freshDriver (mkBus regs [] 0)).1
       = decide (getBits (regs kSfeAS7343RegStatus % 256) 0 1 = 1)) ∧
    ((getSpectralChannelInterruptStatus ⟨false, List.replicate 36 0⟩ (mkBus regs [] 0)).1 = false ∧
     (getSpectralChannelInterruptStatus freshDriver (mkBus regs [true] 0)).1 = false ∧
     (getSpectralChannelInterruptStatus freshDriver (mkBus regs [false, true] 0)).1 = false ∧
     (getSpectralChannelInterruptStatus freshDriver (mkBus regs [false, false, true] 0)).1 = false ∧
     (getSpectralChannelInterruptStatus freshDriver (mkBus regs [] 0)).1
       = decide (getBits (regs kSfeAS7343RegStatus % 256) 3 1 = 1)) ∧
    ((getSpectralInterruptHighStatus ⟨false, List.replicate 36 0⟩ (mkBus regs [] 0)).1 = false ∧
     (getSpectralInterruptHighStatus freshDriver (mkBus regs [true] 0)).1 = false ∧
     (getSpectralInterruptHighStatus freshDriver (mkBus regs [false, true] 0)).1 = false ∧
     (getSpectralInterruptHighStatus freshDriver (mkBus regs [false, false, true] 0)).1 = false ∧
     (getSpectralInterruptHighStatus freshDriver (mkBus regs [] 0)).1
       = decide (getBits (regs kSfeAS7343RegStatus3 % 256) 5 1 = 1)) ∧
    ((getSpectralTriggerErrorStatus ⟨false, List.replicate 36 0⟩ (mkBus regs [] 0)).1 = false ∧
     (getSpectralTriggerErrorStatus freshDriver (mkBus regs [true] 0)).1 = false ∧
     (getSpectralTriggerErrorStatus freshDriver (mkBus regs [false, true] 0)).1 = false ∧
     (getSpectralTriggerErrorStatus freshDriver (mkBus regs [false, false, true] 0)).1 = false ∧
     (getSpectralTriggerErrorStatus freshDriver (mkBus regs [] 0)).1
       = decide (getBits (regs kSfeAS7343RegStatus4 % 256) 2 1 = 1)) ∧
    ((getSpectralValidStatus ⟨false, List.replicate 36 0⟩ (mkBus regs [] 0)).1 = false ∧
     (getSpectralValidStatus freshDriver (mkBus regs [true] 0)).1 = false ∧
     (getSpectralValidStatus freshDriver (mkBus regs [false, true] 0)).1 = false ∧
     (getSpectralValidStatus freshDriver (mkBus regs [false, false, true] 0)).1 = false ∧
     (getSpectralValidStatus freshDriver (mkBus regs [] 0)).1
       = decide (getBits (regs kSfeAS7343RegStatus2 % 256) 6 1 = 1)) ∧
    ((getGpioInputStatus ⟨false, List.replicate 36 0⟩ (mkBus regs [] 0)).1 = false ∧
     (getGpioInputStatus freshDriver (mkBus regs [true] 0)).1 = false ∧
     (getGpioInputStatus freshDriver (mkBus regs [false, true] 0)).1 = false ∧
     (getGpioInputStatus freshDriver (mkBus regs [false, false, true] 0)).1 = false ∧
     (getGpioInputStatus freshDriver (mkBus regs [] 0)).1
       = decide (getBits (regs kSfeAS7343RegGpio % 256) 0 1 = 1)) ∧
    ((getFdValidStatus ⟨false, List.replicate 36 0⟩ (mkBus regs [] 0)).1 = false ∧
     (getFdValidStatus freshDriver (mkBus regs [true] 0)).1 = false ∧
     (getFdValidStatus freshDriver (mkBus regs [false, true] 0)).1 = false ∧
     (getFdValidStatus freshDriver (mkBus regs [false, false, true] 0)).1 = false ∧
     (getFdValidStatus freshDriver (mkBus regs [] 0)).1
       = decide (getBits (regs kSfeAS7343RegFdStatus % 256) 5 1 = 1)) ∧
    ((getFdSaturationStatus ⟨false, List.replicate 36 0⟩ (mkBus regs [] 0)).1 = false ∧
     (getFdSaturationStatus freshDriver (mkBus regs [true] 0)).1 = false ∧
     (getFdSaturationStatus freshDriver (mkBus regs [false, true] 0)).1 = false ∧
     (getFdSaturationStatus freshDriver (mkBus regs [false, false, true] 0)).1 = false ∧
     (getFdSaturationStatus freshDriver (mkBus regs [] 0)).1
       = decide (getBits (regs kSfeAS7343RegFdStatus % 256) 4 1 = 1)) :=
  ⟨⟨rfl, rfl, rfl, rfl, rfl⟩, ⟨rfl, rfl, rfl, rfl, rfl⟩, ⟨rfl, rfl, rfl, rfl, rfl⟩,
   ⟨rfl, rfl, rfl, rfl, rfl⟩, ⟨rfl, rfl, rfl, rfl, rfl⟩, ⟨rfl, rfl, rfl, rfl, rfl⟩,
   ⟨rfl, rfl, rfl, rfl, rfl⟩, ⟨rfl, rfl, rfl, rfl, rfl⟩⟩

/-- C8: confirmed.  For every FD_STATUS byte, getFdFrequency returns 100
when bit 0 (100 Hz detected) and bit 2 (100 Hz valid) are both set,
otherwise 120 when bit 1 (120 Hz detected) and bit 3 (120 Hz valid) are
both set, and 0 in every other case, including a detected bit whose
paired valid bit is clear. -/
theorem getFdFrequency_decodes_detected_and_valid (regs : Nat → Nat) :
    ((getBits (regs kSfeAS7343RegFdStatus % 256) 0 1 = 1 ∧
      getBits (regs kSfeAS7343RegFdStatus % 256) 2 1 = 1) →
      (getFdFrequency freshDriver (mkBus regs [] 0)).1 = 100) ∧
    (¬(getBits (regs kSfeAS7343RegFdStatus % 256) 0 1 = 1 ∧
       getBits (regs kSfeAS7343RegFdStatus % 256) 2 1 = 1) →
     (getBits (regs kSfeAS7343RegFdStatus % 256) 1 1 = 1 ∧
      getBits (regs kSfeAS7343RegFdStatus % 256) 3 1 = 1) →
      (getFdFrequency freshDriver (mkBus regs [] 0)).1 = 120) ∧
    (¬(getBits (regs kSfeAS7343RegFdStatus % 256) 0 1 = 1 ∧
       getBits (regs kSfeAS7343RegFdStatus % 256) 2 1 = 1) →
     ¬(getBits (regs kSfeAS7343RegFdStatus % 256) 1 1 = 1 ∧
       getBits (regs kSfeAS7343RegFdStatus % 256) 3 1 = 1) →
      (getFdFrequency freshDriver (mkBus regs [] 0)).1 = 0) := by
  refine ⟨fun h1 => ?_, fun h1 h2 => ?_, fun h1 h2 => ?_⟩
  · simp only [kSfeAS7343RegFdStatus] at h1
    simp [getFdFrequency, setRegisterBank, Bus.readRegister, Bus.writeRegister,
      Bus.nextFault, mkBus, freshDriver, kSfeAS7343RegFdStatus, kSfeAS7343RegCfg0, h1.1, h1.2]
  · simp only [kSfeAS7343RegFdStatus] at h1 h2
    simp [getFdFrequency, setRegisterBank, Bus.readRegister, Bus.writeRegister,
      Bus.nextFault, mkBus, freshDriver, kSfeAS7343RegFdStatus, kSfeAS7343RegCfg0, h1, h2.1, h2.2]
  · simp only [kSfeAS7343RegFdStatus] at h1 h2
    simp [getFdFrequency, setRegisterBank, Bus.readRegister, Bus.writeRegister,
      Bus.nextFault, mkBus, freshDriver, kSfeAS7343RegFdStatus, kSfeAS7343RegCfg0, h1, h2]

/-- C4: confirmed.  readAllSpectralData succeeds exactly when the
transport moves 36 bytes; after a successful read, getChannelData i for
i in 0..17 is the little-endian 16-bit value assembled from buffer bytes
2i and 2i+1 (the bytes the transport delivered starting at the data-0
register), and every channel index above 17 yields 0. -/
theorem readAllSpectralData_decodes_little_endian (regs : Nat → Nat) (n i : Nat) :
    ((readAllSpectralData freshDriver (mkBus regs [] n)).1 = true ↔ 36 ≤ n) ∧
    (i ≤ 17 →
      getChannelData (readAllSpectralData freshDriver (mkBus regs [] 36)).2.1 i
        = regs (kSfeAS7343RegData0 + 2 * i) % 256
          + 256 * (regs (kSfeAS7343RegData0 + 2 * i + 1) % 256)) ∧
    (17 < i → getChannelData (readAllSpectralData freshDriver (mkBus regs [] 36)).2.1 i = 0) := by
  refine ⟨?_, fun h => ?_, fun h => ?_⟩
  · simp [readAllSpectralData, setRegisterBank, Bus.readRegister, Bus.writeRegister,
      Bus.readBlock, Bus.nextFault, mkBus, freshDriver]
    split <;> simp_all
  · interval_cases i <;> rfl
  · simp [getChannelData, h]

/-- C4 witness: the theorem applied at the identity register file with a
36-byte transfer, at channels 3 and 18. -/
theorem readAllSpectralData_decodes_little_endian_witness :
    (3 ≤ 17 ∧
      getChannelData (readAllSpectralData freshDriver (mkBus (fun a => a) [] 36)).2.1 3
        = (fun a => a) (kSfeAS7343RegData0 + 2 * 3) % 256
          + 256 * ((fun a => a) (kSfeAS7343RegData0 + 2 * 3 + 1) % 256)) ∧
    (17 < 18 ∧
      getChannelData (readAllSpectralData freshDriver (mkBus (fun a => a) [] 36)).2.1 18 = 0) :=
  ⟨⟨by norm_num,
    (readAllSpectralData_decodes_little_endian (fun a => a) 36 3).2.1 (by norm_num)⟩,
   ⟨by norm_num,
    (readAllSpectralData_decodes_little_endian (fun a => a) 36 18).2.2 (by norm_num)⟩⟩

/-- C5 counterexample: a readAllSpectralData call during which the
transport moves only 1 of the requested 36 bytes returns failure, yet the
driver's in-memory channel samples are no longer what they were before
the call: the transferred byte has overwritten the first sample byte. -/
theorem failed_read_can_leave_partial_data :
    (readAllSpectralData freshDriver (mkBus (fun _ => 7) [] 1)).1 = false ∧
    (readAllSpectralData freshDriver (mkBus (fun _ => 7) [] 1)).2.1.data ≠ freshDriver.data := by
  decide

/-- The CFG0 write that a successful bank-1 selection issues, given the
pre-call register file. -/
def cfg0WriteBank1 (regs : Nat → Nat) : Tx :=
  Tx.writeT kSfeAS7343RegCfg0 (setBits (regs kSfeAS7343RegCfg0 % 256) 4 1 1 % 256)

/-- The CFG0 write that a successful bank-0 selection issues, given the
pre-call register file. -/
def cfg0WriteBank0 (regs : Nat → Nat) : Tx :=
  Tx.writeT kSfeAS7343RegCfg0 (setBits (regs kSfeAS7343RegCfg0 % 256) 4 1 0 % 256)

/-- C5 amended: for every modelled public bus operation and every point
at which a bus read returns an error, the operation returns its failure
value and the transaction log ends at the failed read, so no register
write is issued after it; the driver's in-memory channel samples are
untouched (readAllSpectralData, the only operation that writes _data,
keeps it unchanged at both of its read-fault points, and no other
operation touches _data at all).  A readAllSpectralData whose transport
moves fewer than 36 bytes likewise returns failure and issues no write
after the bulk read, but the transferred bytes have already been stored
into _data.  Fault schedule [true] makes the first read (of CFG0) fail;
[false, false, true] makes the read after the bank selection fail. -/
theorem failed_read_aborts_without_subsequent_write (regs : Nat → Nat)
    (bank : RegBank) (again : Nat) (mode : GpioMode) (drive n : Nat) :
    ((setRegisterBank freshDriver (mkBus regs [true] 0) bank).1 = false ∧
     (setRegisterBank freshDriver (mkBus regs [true] 0) bank).2.log
       = [Tx.readT kSfeAS7343RegCfg0]) ∧
    ((powerOn freshDriver (mkBus regs [true] 0)).1 = false ∧
     (powerOn freshDriver (mkBus regs [true] 0)).2.log = [Tx.readT kSfeAS7343RegCfg0] ∧
     (powerOn freshDriver (mkBus regs [false, false, true] 0)).1 = false ∧
     (powerOn freshDriver (mkBus regs [false, false, true] 0)).2.log
       = [Tx.readT kSfeAS7343RegCfg0, cfg0WriteBank1 regs, Tx.readT kSfeAS7343RegID]) ∧
    ((powerOff freshDriver (mkBus regs [true] 0)).1 = false ∧
     (powerOff freshDriver (mkBus regs [true] 0)).2.log = [Tx.readT kSfeAS7343RegCfg0] ∧
     (powerOff freshDriver (mkBus regs [false, false, true] 0)).1 = false ∧
     (powerOff freshDriver (mkBus regs [false, false, true] 0)).2.log
       = [Tx.readT kSfeAS7343RegCfg0, cfg0WriteBank1 regs, Tx.readT kSfeAS7343RegID]) ∧
    ((spectralMeasurementEnable freshDriver (mkBus regs [true] 0)).1 = false ∧
     (spectralMeasurementEnable freshDriver (mkBus regs [true] 0)).2.log
       = [Tx.readT kSfeAS7343RegCfg0] ∧
     (spectralMeasurementEnable freshDriver (mkBus regs [false, false, true] 0)).1 = false ∧
     (spectralMeasurementEnable freshDriver (mkBus regs [false, false, true] 0)).2.log
       = [Tx.readT kSfeAS7343RegCfg0, cfg0WriteBank1 regs, Tx.readT kSfeAS7343RegEnable]) ∧
    ((spectralMeasurementDisable freshDriver (mkBus regs [true] 0)).1 = false ∧
     (spectralMeasurementDisable freshDriver (mkBus regs [true] 0)).2.log
       = [Tx.readT kSfeAS7343RegCfg0] ∧
     (spectralMeasurementDisable freshDriver (mkBus regs [false, false, true] 0)).1 = false ∧
     (spectralMeasurementDisable freshDriver (mkBus regs [false, false, true] 0)).2.log
       = [Tx.readT kSfeAS7343RegCfg0, cfg0WriteBank1 regs, Tx.readT kSfeAS7343RegEnable]) ∧
    ((enableWaitTime freshDriver (mkBus regs [true] 0)).1 = false ∧
     (enableWaitTime freshDriver (mkBus regs [true] 0)).2.log = [Tx.readT kSfeAS7343RegCfg0] ∧
     (enableWaitTime freshDriver (mkBus regs [false, false, true] 0)).1 = false ∧
     (enableWaitTime freshDriver (mkBus regs [false, false, true] 0)).2.log
       = [Tx.readT kSfeAS7343RegCfg0, cfg0WriteBank0 regs, Tx.readT kSfeAS7343RegEnable]) ∧
    ((disableWaitTime freshDriver (mkBus regs [true] 0)).1 = false ∧
     (disableWaitTime freshDriver (mkBus regs [true] 0)).2.log = [Tx.readT kSfeAS7343RegCfg0] ∧
     (disableWaitTime freshDriver (mkBus regs [false, false, true] 0)).1 = false ∧
     (disableWaitTime freshDriver (mkBus regs [false, false, true] 0)).2.log
       = [Tx.readT kSfeAS7343RegCfg0, cfg0WriteBank0 regs, Tx.readT kSfeAS7343RegEnable]) ∧
    ((enableFlickerDetection freshDriver (mkBus regs [true] 0)).1 = false ∧
     (enableFlickerDetection freshDriver (mkBus regs [true] 0)).2.log
       = [Tx.readT kSfeAS7343RegCfg0] ∧
     (enableFlickerDetection freshDriver (mkBus regs [false, false, true] 0)).1 = false ∧
     (enableFlickerDetection freshDriver (mkBus regs [false, false, true] 0)).2.log
       = [Tx.readT kSfeAS7343RegCfg0, cfg0WriteBank0 regs, Tx.readT kSfeAS7343RegEnable]) ∧
    ((disableFlickerDetection freshDriver (mkBus regs [true] 0)).1 = false ∧
     (disableFlickerDetection freshDriver (mkBus regs [true] 0)).2.log
       = [Tx.readT kSfeAS7343RegCfg0] ∧
     (disableFlickerDetection freshDriver (mkBus regs [false, false, true] 0)).1 = false ∧
     (disableFlickerDetection freshDriver (mkBus regs [false, false, true] 0)).2.log
       = [Tx.readT kSfeAS7343RegCfg0, cfg0WriteBank0 regs, Tx.readT kSfeAS7343RegEnable]) ∧
    ((setAgain freshDriver (mkBus regs [true] 0) again).1 = false ∧
     (setAgain freshDriver (mkBus regs [true] 0) again).2.log = [Tx.readT kSfeAS7343RegCfg0] ∧
     (setAgain freshDriver (mkBus regs [false, false, true] 0) again).1 = false ∧
     (setAgain freshDriver (mkBus regs [false, false, true] 0) again).2.log
       = [Tx.readT kSfeAS7343RegCfg0, cfg0WriteBank0 regs, Tx.readT kSfeAS7343RegCfg1]) ∧
    ((setGpioMode freshDriver (mkBus regs [true] 0) mode).1 = false ∧
     (setGpioMode freshDriver (mkBus regs [true] 0) mode).2.log
       = [Tx.readT kSfeAS7343RegCfg0] ∧
     (setGpioMode freshDriver (mkBus regs [false, false, true] 0) mode).1 = false ∧
     (setGpioMode freshDriver (mkBus regs [false, false, true] 0) mode).2.log
       = [Tx.readT kSfeAS7343RegCfg0, cfg0WriteBank0 regs, Tx.readT kSfeAS7343RegGpio]) ∧
    ((getFdFrequency freshDriver (mkBus regs [true] 0)).1 = 0 ∧
     (getFdFrequency freshDriver (mkBus regs [true] 0)).2.log = [Tx.readT kSfeAS7343RegCfg0] ∧
     (getFdFrequency freshDriver (mkBus regs [false, false, true] 0)).1 = 0 ∧
     (getFdFrequency freshDriver (mkBus regs [false, false, true] 0)).2.log
       = [Tx.readT kSfeAS7343RegCfg0, cfg0WriteBank0 regs, Tx.readT kSfeAS7343RegFdStatus]) ∧
    ((getSystemInterruptStatus freshDriver (mkBus regs [true] 0)).1 = false ∧
     (getSystemInterruptStatus freshDriver (mkBus regs [true] 0)).2.log
       = [Tx.readT kSfeAS7343RegCfg0] ∧
     (getSystemInterruptStatus freshDriver (mkBus regs [false, false, true] 0)).1 = false ∧
     (getSystemInterruptStatus freshDriver (mkBus regs [false, false, true] 0)).2.log
       = [Tx.readT kSfeAS7343RegCfg0, cfg0WriteBank0 regs, Tx.readT kSfeAS7343RegStatus]) ∧
    ((getSpectralChannelInterruptStatus freshDriver (mkBus regs [true] 0)).1 = false ∧
     (getSpectralChannelInterruptStatus freshDriver (mkBus regs [true] 0)).2.log
       = [Tx.readT kSfeAS7343RegCfg0] ∧
     (getSpectralChannelInterruptStatus freshDriver (mkBus regs [false, false, true] 0)).1 = false ∧
     (getSpectralChannelInterruptStatus freshDriver (mkBus regs [false, false, true] 0)).2.log
       = [Tx.readT kSfeAS7343RegCfg0, cfg0WriteBank0 regs, Tx.readT kSfeAS7343RegStatus]) ∧
    ((getSpectralInterruptHighStatus freshDriver (mkBus regs [true] 0)).1 = false ∧
     (getSpectralInterruptHighStatus freshDriver (mkBus regs [true] 0)).2.log
       = [Tx.readT kSfeAS7343RegCfg0] ∧
     (getSpectralInterruptHighStatus freshDriver (mkBus regs [false, false, true] 0)).1 = false ∧
     (getSpectralInterruptHighStatus freshDriver (mkBus regs [false, false, true] 0)).2.log
       = [Tx.readT kSfeAS7343RegCfg0, cfg0WriteBank0 regs, Tx.readT kSfeAS7343RegStatus3]) ∧
    ((getSpectralTriggerErrorStatus freshDriver (mkBus regs [true] 0)).1 = false ∧
     (getSpectralTriggerErrorStatus freshDriver (mkBus regs [true] 0)).2.log
       = [Tx.readT kSfeAS7343RegCfg0] ∧
     (getSpectralTriggerErrorStatus freshDriver (mkBus regs [false, false, true] 0)).1 = false ∧
     (getSpectralTriggerErrorStatus freshDriver (mkBus regs [false, false, true] 0)).2.log
       = [Tx.readT kSfeAS7343RegCfg0, cfg0WriteBank0 regs, Tx.readT kSfeAS7343RegStatus4]) ∧
    ((getSpectralValidStatus freshDriver (mkBus regs [true] 0)).1 = false ∧
     (getSpectralValidStatus freshDriver (mkBus regs [true] 0)).2.log
       = [Tx.readT kSfeAS7343RegCfg0] ∧
     (getSpectralValidStatus freshDriver (mkBus regs [false, false, true] 0)).1 = false ∧
     (getSpectralValidStatus freshDriver (mkBus regs [false, false, true] 0)).2.log
       = [Tx.readT kSfeAS7343RegCfg0, cfg0WriteBank0 regs, Tx.readT kSfeAS7343RegStatus2]) ∧
    ((getGpioInputStatus freshDriver (mkBus regs [true] 0)).1 = false ∧
     (getGpioInputStatus freshDriver (mkBus regs [true] 0)).2.log
       = [Tx.readT kSfeAS7343RegCfg0] ∧
     (getGpioInputStatus freshDriver (mkBus regs [false, false, true] 0)).1 = false ∧
     (getGpioInputStatus freshDriver (mkBus regs [false, false, true] 0)).2.log
       = [Tx.readT kSfeAS7343RegCfg0, cfg0WriteBank0 regs, Tx.readT kSfeAS7343RegGpio]) ∧
    ((getFdValidStatus freshDriver (mkBus regs [true] 0)).1 = false ∧
     (getFdValidStatus freshDriver (mkBus regs [true] 0)).2.log
       = [Tx.readT kSfeAS7343RegCfg0] ∧
     (getFdValidStatus freshDriver (mkBus regs [false, false, true] 0)).1 = false ∧
     (getFdValidStatus freshDriver (mkBus regs [false, false, true] 0)).2.log
       = [Tx.readT kSfeAS7343RegCfg0, cfg0WriteBank0 regs, Tx.readT kSfeAS7343RegFdStatus]) ∧
    ((getFdSaturationStatus freshDriver (mkBus regs [true] 0)).1 = false ∧
     (getFdSaturationStatus freshDriver (mkBus regs [true] 0)).2.log
       = [Tx.readT kSfeAS7343RegCfg0] ∧
     (getFdSaturationStatus freshDriver (mkBus regs [false, false, true] 0)).1 = false ∧
     (getFdSaturationStatus freshDriver (mkBus regs [false, false, true] 0)).2.log
       = [Tx.readT kSfeAS7343RegCfg0, cfg0WriteBank0 regs, Tx.readT kSfeAS7343RegFdStatus]) ∧
    ((readAllSpectralData freshDriver (mkBus regs [true] n)).1 = false ∧
     (readAllSpectralData freshDriver (mkBus regs [true] n)).2.1 = freshDriver ∧
     (readAllSpectralData freshDriver (mkBus regs [true] n)).2.2.log
       = [Tx.readT kSfeAS7343RegCfg0] ∧
     (readAllSpectralData freshDriver (mkBus regs [false, false, true] n)).1 = false ∧
     (readAllSpectralData freshDriver (mkBus regs [false, false, true] n)).2.1 = freshDriver ∧
     (readAllSpectralData freshDriver (mkBus regs [false, false, true] n)).2.2.log
       = [Tx.readT kSfeAS7343RegCfg0, cfg0WriteBank0 regs, Tx.blockT kSfeAS7343RegData0 36]) ∧
    (n < 36 →
      (readAllSpectralData freshDriver (mkBus regs [] n)).1 = false ∧
      (readAllSpectralData freshDriver (mkBus regs [] n)).2.2.log
        = [Tx.readT kSfeAS7343RegCfg0, cfg0WriteBank0 regs, Tx.blockT kSfeAS7343RegData0 36]) ∧
    (drive ≤ 127 →
      (setLedDrive freshDriver (mkBus regs [true] 0) drive).1 = false ∧
      (setLedDrive freshDriver (mkBus regs [true] 0) drive).2.log
        = [Tx.readT kSfeAS7343RegCfg0] ∧
      (setLedDrive freshDriver (mkBus regs [false, false, true] 0) drive).1 = false ∧
      (setLedDrive freshDriver (mkBus regs [false, false, true] 0) drive).2.log
        = [Tx.readT kSfeAS7343RegCfg0, cfg0WriteBank0 regs, Tx.readT kSfeAS7343RegLed]) := by
  refine ⟨⟨rfl, rfl⟩, ⟨rfl, rfl, rfl, rfl⟩, ⟨rfl, rfl, rfl, rfl⟩, ⟨rfl, rfl, rfl, rfl⟩,
    ⟨rfl, rfl, rfl, rfl⟩, ⟨rfl, rfl, rfl, rfl⟩, ⟨rfl, rfl, rfl, rfl⟩, ⟨rfl, rfl, rfl, rfl⟩,
    ⟨rfl, rfl, rfl, rfl⟩, ⟨rfl, rfl, rfl, rfl⟩, ⟨rfl, rfl, rfl, rfl⟩, ⟨rfl, rfl, rfl, rfl⟩,
    ⟨rfl, rfl, rfl, rfl⟩, ⟨rfl, rfl, rfl, rfl⟩, ⟨rfl, rfl, rfl, rfl⟩, ⟨rfl, rfl, rfl, rfl⟩,
    ⟨rfl, rfl, rfl, rfl⟩, ⟨rfl, rfl, rfl, rfl⟩, ⟨rfl, rfl, rfl, rfl⟩, ⟨rfl, rfl, rfl, rfl⟩,
    ⟨rfl, rfl, rfl, rfl, rfl, rfl⟩, fun h => ?_, fun hd => ?_⟩
  · have hmin : min n 36 = n := by omega
    have hne : n ≠ 36 := by omega
    simp [readAllSpectralData, setRegisterBank, Bus.readRegister, Bus.writeRegister,
      Bus.readBlock, Bus.nextFault, mkBus, freshDriver, cfg0WriteBank0, hmin, hne]
  · have hnot : ¬ 127 < drive := by omega
    refine ⟨?_, ?_, ?_, ?_⟩
    · show (if 127 < drive then (false, mkBus regs [true] 0) else _).1 = false
      rw [if_neg hnot]
    · show (if 127 < drive then (false, mkBus regs [true] 0) else _).2.log = _
      rw [if_neg hnot]
      rfl
    · show (if 127 < drive then (false, mkBus regs [false, false, true] 0) else _).1 = false
      rw [if_neg hnot]
    · show (if 127 < drive then (false, mkBus regs [false, false, true] 0) else _).2.log = _
      rw [if_neg hnot]
      rfl

/-- C5 witness: the amended theorem applied at the all-zero register
file with bank 0, again 5, input GPIO mode, drive 5 and a 1-byte
transfer, instantiating both hypothesis-bearing parts. -/
theorem failed_read_aborts_without_subsequent_write_witness :
    1 < 36 ∧ 5 ≤ 127 ∧
    (readAllSpectralData freshDriver (mkBus (fun _ => 0) [] 1)).1 = false ∧
    (readAllSpectralData freshDriver (mkBus (fun _ => 0) [] 1)).2.2.log
      = [Tx.readT kSfeAS7343RegCfg0, cfg0WriteBank0 (fun _ => 0),
         Tx.blockT kSfeAS7343RegData0 36] ∧
    (setLedDrive freshDriver (mkBus (fun _ => 0) [true] 0) 5).1 = false ∧
    (setLedDrive freshDriver (mkBus (fun _ => 0) [false, false, true] 0) 5).2.log
      = [Tx.readT kSfeAS7343RegCfg0, cfg0WriteBank0 (fun _ => 0),
         Tx.readT kSfeAS7343RegLed] := by
  have H := failed_read_aborts_without_subsequent_write (fun _ => 0)
    RegBank.REG_BANK_0 5 GpioMode.AS7343_GPIO_MODE_INPUT 5 1
  obtain ⟨-, -, -, -, -, -, -, -, -, -, -, -, -, -, -, -, -, -, -, -, -,
    hshort, hled⟩ := H
  have hs := hshort (by norm_num)
  have hl := hled (by norm_num)
  exact ⟨by norm_num, by norm_num, hs.1, hs.2, hl.1, hl.2.2.2⟩

/-- Full run of setLedDrive on a fault-free bus for an in-range drive
value: one CFG0 read, one CFG0 write selecting bank 0, one LED read, one
LED write whose byte keeps bit 7 and stores the drive in bits 0-6. -/
theorem setLedDrive_run (regs : Nat → Nat) (drive : Nat) (h : drive ≤ 127) :
    setLedDrive freshDriver (mkBus regs [] 0) drive
      = (true,
         { regs := fun a =>
             if a = kSfeAS7343RegLed
               then setBits (regs kSfeAS7343RegLed % 256) 0 7 drive % 256
               else if a = kSfeAS7343RegCfg0
                 then setBits (regs kSfeAS7343RegCfg0 % 256) 4 1 0 % 256
                 else regs a,
           faults := [], bulkN := 0,
           log := [Tx.readT kSfeAS7343RegCfg0,
                   Tx.writeT kSfeAS7343RegCfg0 (setBits (regs kSfeAS7343RegCfg0 % 256) 4 1 0 % 256),
                   Tx.readT kSfeAS7343RegLed,
                   Tx.writeT kSfeAS7343RegLed
                     (setBits (regs kSfeAS7343RegLed % 256) 0 7 drive % 256)] }) := by
  have hnot : ¬ 127 < drive := by omega
  show (if 127 < drive then (false, mkBus regs [] 0) else _) = _
  rw [if_neg hnot]
  rfl

/-- C7: confirmed.  setLedDrive rejects every drive above 127 before any
bus transaction (the bus comes back exactly as it went in, log included),
and for drive in 0..127 it succeeds, the LED register afterwards holds
exactly drive in its 7-bit led_drive field, and the led_act bit (bit 7)
keeps the value that was read. -/
theorem setLedDrive_range_check_and_frame (regs : Nat → Nat) (drive : Nat) :
    (127 < drive → setLedDrive freshDriver (mkBus regs [] 0) drive = (false, mkBus regs [] 0)) ∧
    (drive ≤ 127 →
      (setLedDrive freshDriver (mkBus regs [] 0) drive).1 = true ∧
      (setLedDrive freshDriver (mkBus regs [] 0) drive).2.regs kSfeAS7343RegLed % 128 = drive ∧
      (setLedDrive freshDriver (mkBus regs [] 0) drive).2.regs kSfeAS7343RegLed / 128
        = regs kSfeAS7343RegLed % 256 / 128) := by
  constructor
  · intro h
    show (if 127 < drive then (false, mkBus regs [] 0) else _) = _
    rw [if_pos h]
  · intro h
    rw [setLedDrive_run regs drive h]
    have hr : regs kSfeAS7343RegLed % 256 < 256 := Nat.mod_lt _ (by norm_num)
    have hfacts := setBits_led_drive (regs kSfeAS7343RegLed % 256) drive hr h
    exact ⟨rfl, hfacts.1, hfacts.2⟩

/-- C7 witness: the theorem applied at the all-ones register file with
the out-of-range drive 128 and the maximal in-range drive 127. -/
theorem setLedDrive_range_check_and_frame_witness :
    (setLedDrive freshDriver (mkBus (fun _ => 255) [] 0) 128
      = (false, mkBus (fun _ => 255) [] 0)) ∧
    (setLedDrive freshDriver (mkBus (fun _ => 255) [] 0) 127).1 = true ∧
    (setLedDrive freshDriver (mkBus (fun _ => 255) [] 0) 127).2.regs kSfeAS7343RegLed % 128
      = 127 ∧
    (setLedDrive freshDriver (mkBus (fun _ => 255) [] 0) 127).2.regs kSfeAS7343RegLed / 128
      = (fun _ => 255) kSfeAS7343RegLed % 256 / 128 :=
  ⟨(setLedDrive_range_check_and_frame (fun _ => 255) 128).1 (by norm_num),
   ((setLedDrive_range_check_and_frame (fun _ => 255) 127).2 (by norm_num)).1,
   ((setLedDrive_range_check_and_frame (fun _ => 255) 127).2 (by norm_num)).2.1,
   ((setLedDrive_range_check_and_frame (fun _ => 255) 127).2 (by norm_num)).2.2⟩

/-- C8 witness: the decode theorem applied at FD_STATUS = 0x05 (100 Hz
detected and valid, so 100) and at FD_STATUS = 0x01 (100 Hz detected but
not valid, so 0). -/
theorem getFdFrequency_decodes_witness :
    (getFdFrequency freshDriver (mkBus (fun _ => 5) [] 0)).1 = 100 ∧
    (getFdFrequency freshDriver (mkBus (fun _ => 1) [] 0)).1 = 0 :=
  ⟨(getFdFrequency_decodes_detected_and_valid (fun _ => 5)).1 (by decide),
   (getFdFrequency_decodes_detected_and_valid (fun _ => 1)).2.2 (by decide) (by decide)⟩

end AS7343
